import Mathlib

/-!
# Petrotech order lifecycle, pricing & settlement — verification development

Shallow embedding of the order/charging-order state machines, the pricing
arithmetic, driver assignment, the payment-status synchronizer and the
earnings/payout ledger of the Petrotech backend, together with theorems
settling the specification claims.

Modelling conventions:
* JS `number` money values are modelled as `ℚ`; `Math.round(x * 100) / 100`
  is `round2` (round half towards +∞, exactly the behaviour of `Math.round`
  on reals).
* Timestamps are modelled as `Nat` (epoch instants); a nullable timestamp is
  `Option Nat`.  ISO-8601 strings of a fixed format compare lexicographically
  exactly as their instants compare, and a missing date is rendered as the
  empty string (which sorts below every ISO string), so the JS comparator
  `(b.deliveredAt || '').localeCompare(a.deliveredAt || '')` is modelled by
  comparing `Option Nat` with `none` as the bottom element.
* The Prisma store is a structure of lists; `findFirst`/`findUnique` is
  `List.find?`, `findMany`+filter is `List.filter`, and `update where {id}`
  replaces every record with the given id (ids are unique in the store).
* A thrown service error is an `Except.error` carrying the message; an HTTP
  controller response is a `(statusCode, body)`-style structure.
-/

namespace Petrotech

/-- `Math.round (q * 100) / 100`: round to 2 decimals, half towards +∞. -/
def round2 (q : ℚ) : ℚ := (⌊q * 100 + 1/2⌋ : ℚ) / 100

/-- `round2` always lands on a whole number of cents. -/
def CentIntegral (q : ℚ) : Prop := ∃ k : ℤ, q = (k : ℚ) / 100

theorem centIntegral_round2 (q : ℚ) : CentIntegral (round2 q) :=
  ⟨⌊q * 100 + 1/2⌋, rfl⟩

theorem centIntegral_zero : CentIntegral 0 := ⟨0, by norm_num⟩

/-- Evaluation rule for `round2` at concrete rationals. -/
theorem round2_eval (q : ℚ) (k : ℤ) (h1 : (k : ℚ) ≤ q * 100 + 1/2)
    (h2 : q * 100 + 1/2 < k + 1) : round2 q = (k : ℚ) / 100 := by
  unfold round2
  rw [Int.floor_eq_iff.mpr ⟨h1, h2⟩]

/-- Shifting by a whole number of cents commutes with `round2`. -/
theorem round2_add_int_cents (a : ℚ) (k : ℤ) :
    round2 (a + (k : ℚ) / 100) = round2 a + (k : ℚ) / 100 := by
  unfold round2
  have h : (a + (k : ℚ) / 100) * 100 + 1/2 = (a * 100 + 1/2) + (k : ℚ) := by ring
  rw [h, Int.floor_add_int]
  push_cast
  ring

/-- Rounding a two-term sum differs from the sum of the roundings by at most
one cent. -/
theorem abs_round2_add_sub_le (a b : ℚ) :
    |round2 (a + b) - (round2 a + round2 b)| ≤ 1/100 := by
  set n : ℤ := ⌊a * 100 + 1/2⌋ with hn
  set m : ℤ := ⌊b * 100 + 1/2⌋ with hm
  set s : ℤ := ⌊(a + b) * 100 + 1/2⌋ with hs
  have hsle : (s : ℚ) ≤ (a + b) * 100 + 1/2 := Int.floor_le _
  have hslt : (a + b) * 100 + 1/2 - 1 < (s : ℚ) := Int.sub_one_lt_floor _
  have hnle : (n : ℚ) ≤ a * 100 + 1/2 := Int.floor_le _
  have hnlt : a * 100 + 1/2 - 1 < (n : ℚ) := Int.sub_one_lt_floor _
  have hmle : (m : ℚ) ≤ b * 100 + 1/2 := Int.floor_le _
  have hmlt : b * 100 + 1/2 - 1 < (m : ℚ) := Int.sub_one_lt_floor _
  have hub : (s : ℚ) - (n : ℚ) - (m : ℚ) < 3/2 := by linarith
  have hlb : (-(3/2) : ℚ) < (s : ℚ) - (n : ℚ) - (m : ℚ) := by linarith
  have hubz : 2 * (s - n - m) < 3 := by
    have : ((2 * (s - n - m) : ℤ) : ℚ) < 3 := by push_cast; linarith
    exact_mod_cast this
  have hlbz : -3 < 2 * (s - n - m) := by
    have : (-3 : ℚ) < ((2 * (s - n - m) : ℤ) : ℚ) := by push_cast; linarith
    exact_mod_cast this
  have habs : |s - n - m| ≤ 1 := by
    rw [abs_le]; omega
  have hq : |((s : ℚ) - n - m)| ≤ 1 := by
    have h1 : ((s - n - m : ℤ) : ℚ) = (s : ℚ) - n - m := by push_cast; ring
    rw [← h1, ← Int.cast_abs]
    exact_mod_cast habs
  have hmain : round2 (a + b) - (round2 a + round2 b) = ((s : ℚ) - n - m) / 100 := by
    unfold round2
    rw [← hn, ← hm, ← hs]
    ring
  rw [hmain, abs_div, show |(100 : ℚ)| = 100 by norm_num]
  linarith

/-- The core C5 bound: rounding `a + b + (cents)` differs from
`round2 a + round2 b + (cents)` by at most one cent. -/
theorem abs_round2_total_le (a b : ℚ) (k : ℤ) :
    |round2 (a + b + (k : ℚ) / 100) - (round2 a + round2 b + (k : ℚ) / 100)| ≤ 1/100 := by
  rw [round2_add_int_cents]
  have := abs_round2_add_sub_le a b
  calc |round2 (a + b) + (k : ℚ)/100 - (round2 a + round2 b + (k : ℚ)/100)|
      = |round2 (a + b) - (round2 a + round2 b)| := by ring_nf
    _ ≤ 1/100 := this

/-! ## Data model (Prisma schema enums and records) -/

/-- `OrderStatus` (fuel orders). -/
inductive OrderStatus
  | PENDING | CONFIRMED | DISPATCHED | IN_TRANSIT | DELIVERED | CANCELLED
  deriving DecidableEq, Repr

/-- `ChargingOrderStatus` (EV charging orders). -/
inductive ChargingOrderStatus
  | PENDING | CONFIRMED | ASSIGNED | IN_PROGRESS | COMPLETED | CANCELLED
  deriving DecidableEq, Repr

/-- `PaymentStatus`. -/
inductive PaymentStatus
  | PENDING | PAID | FAILED | REFUNDED
  deriving DecidableEq, Repr

/-- `PaymentMethod`. -/
inductive PaymentMethod
  | ONLINE | CASH_ON_DELIVERY | CARD_ON_DELIVERY
  deriving DecidableEq, Repr

/-- `PayoutStatus` (driver payout ledger). -/
inductive PayoutStatus
  | PENDING | SUCCEEDED | FAILED
  deriving DecidableEq, Repr

/-- A fuel `Order` row (the fields the verified operations touch). -/
structure FuelOrder where
  id : String
  userId : String
  driverId : Option String
  orderNumber : String
  status : OrderStatus
  paymentStatus : PaymentStatus
  paymentMethod : PaymentMethod
  totalAmount : ℚ
  fuelCost : ℚ
  deliveryFee : ℚ
  tax : ℚ
  tip : ℚ
  deliveredAt : Option Nat
  cancelledAt : Option Nat
  cancellationReason : Option String
  deriving DecidableEq, Repr

/-- A `ChargingOrder` row (the fields the verified operations touch). -/
structure ChargingOrder where
  id : String
  userId : String
  driverId : Option String
  chargingUnitId : Option String
  orderNumber : String
  status : ChargingOrderStatus
  paymentStatus : PaymentStatus
  paymentMethod : PaymentMethod
  totalAmount : ℚ
  baseFee : ℚ
  deliveryFee : ℚ
  tax : ℚ
  tip : ℚ
  startedAt : Option Nat
  completedAt : Option Nat
  cancelledAt : Option Nat
  cancellationReason : Option String
  deriving DecidableEq, Repr

/-- A `Driver` row. -/
structure Driver where
  id : String
  isAvailable : Bool
  isActive : Bool
  stripeConnectAccountId : Option String
  deriving DecidableEq, Repr

/-- A `DriverPayout` ledger row. -/
structure DriverPayout where
  id : String
  driverId : String
  amount : ℚ
  status : PayoutStatus
  stripeTransferId : Option String
  failureReason : Option String
  deriving DecidableEq, Repr

/-- A `DriverLocation` row (one per driver, latest wins). -/
structure DriverLocation where
  driverId : String
  latitude : ℚ
  longitude : ℚ
  accuracy : Option ℚ
  heading : Option ℚ
  speed : Option ℚ
  deriving DecidableEq, Repr

/-- The backing store: one list per table, ids unique per table. -/
structure Db where
  orders : List FuelOrder
  chargingOrders : List ChargingOrder
  drivers : List Driver
  payouts : List DriverPayout
  locations : List DriverLocation
  deriving Repr

/-! ## Geospatial pricing module

Modelled from the spec: `src/lib/distance.ts` (imported by `order.service.ts`
and `charging.service.ts` as `calculateDistance`, `COMPANY_LOCATION`,
`calculateDeliveryFee`, `calculateTax`, `calculateCompanyMarkup`) is not part
of this repository snapshot; the definitions below follow §4.1 of the spec.
The haversine `calculateDistance` involves real trigonometry and none of the
claims depend on its value, so operations that need a distance take the
already-computed distance as an argument. -/

/-- Modelled from the spec: missing `src/lib/distance.ts` `calculateDeliveryFee`.
0 if distance ≤ 0; `distance × 1.25` for distance ≤ 3 mi; marginal
`3 × 1.25 + (distance − 3) × 0.95` beyond; rounded to 2 decimals. -/
def calculateDeliveryFee (d : ℚ) : ℚ :=
  if d ≤ 0 then 0
  else if d ≤ 3 then round2 (d * (5/4))
  else round2 (3 * (5/4) + (d - 3) * (19/20))

/-- Modelled from the spec: missing `src/lib/distance.ts` `calculateTax`.
Flat 6% of the subtotal, rounded to 2 decimals; the state code is accepted
but unused. -/
def calculateTax (subtotal : ℚ) (_stateCode : Option String) : ℚ :=
  round2 ((6/100) * subtotal)

/-- Modelled from the spec: missing `src/lib/distance.ts` `calculateCompanyMarkup`.
`baseCost × 0.00095`, rounded to 2 decimals. -/
def calculateCompanyMarkup (baseCost : ℚ) : ℚ :=
  round2 (baseCost * (95/100000))

theorem centIntegral_calculateDeliveryFee (d : ℚ) :
    CentIntegral (calculateDeliveryFee d) := by
  unfold calculateDeliveryFee
  split
  · exact centIntegral_zero
  · split
    · exact centIntegral_round2 _
    · exact centIntegral_round2 _

theorem centIntegral_calculateTax (s : ℚ) (st : Option String) :
    CentIntegral (calculateTax s st) := centIntegral_round2 _

/-- `round2` fixes whole-cent values. -/
theorem round2_of_centIntegral {q : ℚ} (h : CentIntegral q) : round2 q = q := by
  obtain ⟨k, rfl⟩ := h
  unfold round2
  have h1 : (k : ℚ) / 100 * 100 + 1/2 = 1/2 + (k : ℚ) := by field_simp; ring
  rw [h1]
  rw [show ((1 : ℚ)/2 + (k : ℚ)) = (1/2 : ℚ) + ((k : ℤ) : ℚ) by norm_num,
    Int.floor_add_int]
  norm_num

/-! ## Order aggregate: `orderService.createOrder` (order.service.ts) -/

/-- An `Address` row (the fields `createOrder` touches). -/
structure Address where
  id : String
  userId : String
  state : Option String
  latitude : Option ℚ
  longitude : Option ℚ
  deriving DecidableEq, Repr

/-- A `Product` row. -/
structure Product where
  id : String
  name : String
  pricePerLiter : ℚ
  isAvailable : Bool
  deriving DecidableEq, Repr

/-- One entry of `CreateOrderDto.items`. -/
structure OrderItemDto where
  productId : String
  quantity : ℚ
  deriving DecidableEq, Repr

/-- A created `OrderItem` row: price and subtotal carry the hidden markup. -/
structure OrderItemRec where
  productId : String
  quantity : ℚ
  price : ℚ
  subtotal : ℚ
  deriving DecidableEq, Repr

/-- JS truthiness of a nullable number: `null`/`undefined` and `0` are falsy
(`if (!address.latitude || !address.longitude)`). -/
def jsTruthyNum : Option ℚ → Bool
  | none => false
  | some q => decide (q ≠ 0)

/-- Accumulator of the item-validation loop in `createOrder`. -/
structure ItemAcc where
  fuelCost : ℚ
  baseFuelCost : ℚ
  orderItems : List OrderItemRec
  deriving Repr

/-- The `for (const item of items)` loop of `createOrder`: validates each
product reference, availability and quantity range, and accumulates the
marked-up fuel cost; throws (returns `.error`) at the first violation. -/
def processItems (products : List Product) :
    List OrderItemDto → ItemAcc → Except String ItemAcc
  | [], acc => .ok acc
  | item :: rest, acc =>
    match products.find? (fun p => p.id = item.productId) with
    | none => .error ("Product with id " ++ item.productId ++ " not found")
    | some product =>
      if !product.isAvailable then
        .error ("Product " ++ product.name ++ " is not available")
      else if item.quantity < 50 then
        .error "Minimum order quantity is 50 liters"
      else if item.quantity > 5000 then
        .error "Maximum order quantity is 5000 liters"
      else
        let priceWithMarkup := product.pricePerLiter * (100095/100000)
        let baseSubtotal := item.quantity * product.pricePerLiter
        let subtotalWithMarkup := item.quantity * priceWithMarkup
        processItems products rest
          { fuelCost := acc.fuelCost + subtotalWithMarkup
            baseFuelCost := acc.baseFuelCost + baseSubtotal
            orderItems := acc.orderItems ++
              [{ productId := product.id, quantity := item.quantity,
                 price := priceWithMarkup, subtotal := subtotalWithMarkup }] }

/-- The stored fields of a successfully created fuel order. -/
structure CreatedOrder where
  status : OrderStatus
  paymentStatus : PaymentStatus
  totalAmount : ℚ
  fuelCost : ℚ
  companyMarkup : ℚ
  distance : ℚ
  deliveryFee : ℚ
  tax : ℚ
  tip : ℚ
  orderItems : List OrderItemRec
  deriving DecidableEq, Repr

/-- `orderService.createOrder`: address-ownership and coordinate checks, item
validation, pricing breakdown and rounding, persisted as a PENDING order.
`address` is the result of `findFirst {id, userId}`; `distance` is the value
returned by the (spec-modelled, real-valued) `calculateDistance`. -/
def createOrder (products : List Product) (address : Option Address)
    (distance : ℚ) (tip : ℚ) (items : List OrderItemDto) :
    Except String CreatedOrder :=
  match address with
  | none => .error "Address not found or does not belong to user"
  | some addr =>
    if !(jsTruthyNum addr.latitude && jsTruthyNum addr.longitude) then
      .error "Address must have valid coordinates for distance calculation"
    else
      match processItems products items ⟨0, 0, []⟩ with
      | .error e => .error e
      | .ok acc =>
        let companyMarkup := calculateCompanyMarkup acc.baseFuelCost
        let deliveryFee := calculateDeliveryFee distance
        let subtotalForTax := acc.fuelCost + deliveryFee
        let tax := calculateTax subtotalForTax addr.state
        let totalAmount := acc.fuelCost + deliveryFee + tax + tip
        .ok { status := .PENDING
              paymentStatus := .PENDING
              totalAmount := round2 totalAmount
              fuelCost := round2 acc.fuelCost
              companyMarkup := round2 companyMarkup
              distance := round2 distance
              deliveryFee := round2 deliveryFee
              tax := round2 tax
              tip := round2 tip
              orderItems := acc.orderItems }

/-- C5: for every successfully created fuel order, the stored `totalAmount`
equals the sum of the stored components `fuelCost + deliveryFee + tax + tip`
(each independently rounded to 2 decimals) to within $0.01. -/
theorem createOrder_total_within_cent
    (products : List Product) (address : Option Address)
    (distance tip : ℚ) (items : List OrderItemDto) (o : CreatedOrder)
    (h : createOrder products address distance tip items = .ok o) :
    |o.totalAmount - (o.fuelCost + o.deliveryFee + o.tax + o.tip)| ≤ 1/100 := by
  cases address with
  | none => simp [createOrder] at h
  | some addr =>
    rw [createOrder] at h
    split at h
    · exact absurd h (by simp)
    · split at h
      · exact absurd h (by simp)
      · rename_i acc heq
        simp only [Except.ok.injEq] at h
        subst h
        simp only
        obtain ⟨kf, hkf⟩ := centIntegral_calculateDeliveryFee distance
        obtain ⟨kt, hkt⟩ :=
          centIntegral_calculateTax (acc.fuelCost + calculateDeliveryFee distance) addr.state
        rw [round2_of_centIntegral (centIntegral_calculateDeliveryFee distance),
          round2_of_centIntegral
            (centIntegral_calculateTax (acc.fuelCost + calculateDeliveryFee distance) addr.state)]
        rw [hkt, hkf]
        have key := abs_round2_total_le acc.fuelCost tip (kf + kt)
        convert key using 2
        all_goals (push_cast; ring_nf)

/-- `round2` fixes 0 (used to evaluate the witnesses). -/
theorem round2_zero : round2 (0 : ℚ) = 0 := round2_of_centIntegral centIntegral_zero

/-- Concrete creation input used to witness `createOrder_total_within_cent`. -/
def exProducts : List Product :=
  [{ id := "p1", name := "Diesel", pricePerLiter := 0, isAvailable := true }]

/-- Concrete address used to witness `createOrder_total_within_cent`. -/
def exAddress : Address :=
  { id := "a1", userId := "u1", state := none, latitude := some 1, longitude := some 1 }

/-- Concrete items used to witness `createOrder_total_within_cent`. -/
def exItems : List OrderItemDto := [{ productId := "p1", quantity := 100 }]

/-- The order `createOrder` produces on the concrete witness input. -/
def exCreatedOrder : CreatedOrder :=
  { status := .PENDING
    paymentStatus := .PENDING
    totalAmount := 0
    fuelCost := 0
    companyMarkup := 0
    distance := 0
    deliveryFee := 0
    tax := 0
    tip := 0
    orderItems := [{ productId := "p1", quantity := 100, price := 0, subtotal := 0 }] }

theorem createOrder_ex_eval :
    createOrder exProducts (some exAddress) 0 0 exItems = .ok exCreatedOrder := by
  simp only [exProducts, exAddress, exItems, exCreatedOrder, createOrder, processItems,
    jsTruthyNum, List.find?, calculateDeliveryFee, calculateTax, calculateCompanyMarkup]
  norm_num [round2_zero]

/-- Witness for `createOrder_total_within_cent` at a concrete input. -/
theorem createOrder_total_within_cent_witness :
    createOrder exProducts (some exAddress) 0 0 exItems = .ok exCreatedOrder ∧
      |exCreatedOrder.totalAmount -
        (exCreatedOrder.fuelCost + exCreatedOrder.deliveryFee +
          exCreatedOrder.tax + exCreatedOrder.tip)| ≤ 1/100 :=
  ⟨createOrder_ex_eval, createOrder_total_within_cent exProducts (some exAddress) 0 0 exItems
    exCreatedOrder createOrder_ex_eval⟩

/-! ## Earnings & payout ledger: `getDriverEarnings` (driverEarnings.service.ts) -/

/-- `MIN_PAYOUT_AMOUNT = 5` dollars. -/
def MIN_PAYOUT_AMOUNT : ℚ := 5

/-- The `type` tag of a recent-earnings entry. -/
inductive EarningType
  | fuel | charging
  deriving DecidableEq, Repr

/-- One entry of the recent-earnings feed. -/
structure RecentEarning where
  id : String
  orderNumber : String
  type : EarningType
  amount : ℚ
  deliveredAt : Option Nat
  deriving DecidableEq, Repr

/-- The result record of `getDriverEarnings`. -/
structure DriverEarningsResult where
  totalEarned : ℚ
  totalPaidOut : ℚ
  availableBalance : ℚ
  recentEarnings : List RecentEarning
  canWithdraw : Bool
  minPayoutAmount : ℚ
  deriving Repr

/-- Sort key of the feed comparator
`(b.deliveredAt || '').localeCompare(a.deliveredAt || '')`: a missing date is
rendered as `''`, which sorts strictly below every ISO timestamp string. -/
def earnKey : Option Nat → Nat
  | none => 0
  | some t => t + 1

/-- "`a` may come before `b`" in the date-descending feed order. -/
def earnGE (a b : RecentEarning) : Prop :=
  earnKey b.deliveredAt ≤ earnKey a.deliveredAt

instance : DecidableRel earnGE := fun _ _ => Nat.decLe _ _

instance : IsTotal RecentEarning earnGE := ⟨fun _ _ => le_total _ _⟩

instance : IsTrans RecentEarning earnGE := ⟨fun _ _ _ hab hbc => le_trans hbc hab⟩

/-- Qualification filter of the fuel-order earnings query:
`{driverId, status: DELIVERED, paymentStatus: PAID}`. -/
def fuelEarnQual (driverId : String) (o : FuelOrder) : Bool :=
  decide (o.driverId = some driverId ∧ o.status = OrderStatus.DELIVERED ∧
    o.paymentStatus = PaymentStatus.PAID)

/-- Qualification filter of the charging-order earnings query:
`{driverId, status: COMPLETED, paymentStatus: PAID}`. -/
def chargingEarnQual (driverId : String) (o : ChargingOrder) : Bool :=
  decide (o.driverId = some driverId ∧ o.status = ChargingOrderStatus.COMPLETED ∧
    o.paymentStatus = PaymentStatus.PAID)

/-- Feed entry built from a qualifying fuel order. -/
def fuelEntry (o : FuelOrder) : RecentEarning :=
  { id := o.id, orderNumber := o.orderNumber, type := .fuel,
    amount := o.deliveryFee + o.tip, deliveredAt := o.deliveredAt }

/-- Feed entry built from a qualifying charging order (its `deliveredAt`
field carries `completedAt`). -/
def chargingEntry (o : ChargingOrder) : RecentEarning :=
  { id := o.id, orderNumber := o.orderNumber, type := .charging,
    amount := o.deliveryFee + o.tip, deliveredAt := o.completedAt }

/-- One iteration of the `for (const o of fuelOrders)` loop: accrue
`deliveryFee + tip` (the schema makes both non-null, so `|| 0` is the
identity) and push a feed entry when the amount is positive. -/
def earnStepFuel (acc : ℚ × List RecentEarning) (o : FuelOrder) :
    ℚ × List RecentEarning :=
  let amount := o.deliveryFee + o.tip
  (acc.1 + amount, if 0 < amount then acc.2 ++ [fuelEntry o] else acc.2)

/-- One iteration of the `for (const o of chargingOrders)` loop. -/
def earnStepCharging (acc : ℚ × List RecentEarning) (o : ChargingOrder) :
    ℚ × List RecentEarning :=
  let amount := o.deliveryFee + o.tip
  (acc.1 + amount, if 0 < amount then acc.2 ++ [chargingEntry o] else acc.2)

/-- `getDriverEarnings` (driverEarnings.service.ts): accrue
`deliveryFee + tip` over the driver's DELIVERED+PAID fuel orders and
COMPLETED+PAID charging orders, subtract SUCCEEDED payouts, clamp at 0, and
return the positive-amount entries sorted date-descending, first 20. -/
def getDriverEarnings (db : Db) (driverId : String) : DriverEarningsResult :=
  let fuelOrders := db.orders.filter (fuelEarnQual driverId)
  let chargingOrders := db.chargingOrders.filter (chargingEarnQual driverId)
  let acc1 := fuelOrders.foldl earnStepFuel (0, [])
  let acc2 := chargingOrders.foldl earnStepCharging acc1
  let totalEarned := acc2.1
  let sortedEarnings := List.insertionSort earnGE acc2.2
  let payouts := db.payouts.filter
    (fun p => decide (p.driverId = driverId ∧ p.status = PayoutStatus.SUCCEEDED))
  let totalPaidOut := payouts.foldl (fun s p => s + p.amount) 0
  let availableBalance := max 0 (totalEarned - totalPaidOut)
  { totalEarned := totalEarned
    totalPaidOut := totalPaidOut
    availableBalance := availableBalance
    recentEarnings := sortedEarnings.take 20
    canWithdraw := decide (MIN_PAYOUT_AMOUNT ≤ availableBalance)
    minPayoutAmount := MIN_PAYOUT_AMOUNT }

theorem foldl_earnStepFuel (l : List FuelOrder) (s : ℚ) (t : List RecentEarning) :
    l.foldl earnStepFuel (s, t) =
      (s + (l.map (fun o => o.deliveryFee + o.tip)).sum,
        t ++ (l.filter (fun o => decide (0 < o.deliveryFee + o.tip))).map fuelEntry) := by
  induction l generalizing s t with
  | nil => simp
  | cons x xs ih =>
    simp only [List.foldl_cons, earnStepFuel, ih, List.map_cons, List.sum_cons, List.filter_cons,
      Prod.mk.injEq]
    refine ⟨by ring, ?_⟩
    by_cases hx : 0 < x.deliveryFee + x.tip
    · simp [hx]
    · simp [hx]

theorem foldl_earnStepCharging (l : List ChargingOrder) (s : ℚ) (t : List RecentEarning) :
    l.foldl earnStepCharging (s, t) =
      (s + (l.map (fun o => o.deliveryFee + o.tip)).sum,
        t ++ (l.filter (fun o => decide (0 < o.deliveryFee + o.tip))).map chargingEntry) := by
  induction l generalizing s t with
  | nil => simp
  | cons x xs ih =>
    simp only [List.foldl_cons, earnStepCharging, ih, List.map_cons, List.sum_cons,
      List.filter_cons, Prod.mk.injEq]
    refine ⟨by ring, ?_⟩
    by_cases hx : 0 < x.deliveryFee + x.tip
    · simp [hx]
    · simp [hx]

theorem foldl_payout_sum (l : List DriverPayout) (s : ℚ) :
    l.foldl (fun s p => s + p.amount) s = s + (l.map (fun p => p.amount)).sum := by
  induction l generalizing s with
  | nil => simp
  | cons x xs ih => simp [ih]; ring

/-- C1: `getDriverEarnings` returns `totalEarned` = Σ(deliveryFee+tip) over
the driver's DELIVERED∧PAID fuel orders plus Σ(deliveryFee+tip) over the
driver's COMPLETED∧PAID charging orders; `totalPaidOut` = Σ amount over the
driver's SUCCEEDED payouts; `availableBalance = max 0 (earned − paidOut)`;
and `canWithdraw` exactly when the available balance is at least $5. -/
theorem getDriverEarnings_spec (db : Db) (d : String) :
    (getDriverEarnings db d).totalEarned =
        ((db.orders.filter (fuelEarnQual d)).map (fun o => o.deliveryFee + o.tip)).sum +
        ((db.chargingOrders.filter (chargingEarnQual d)).map
          (fun o => o.deliveryFee + o.tip)).sum ∧
    (getDriverEarnings db d).totalPaidOut =
        ((db.payouts.filter
          (fun p => decide (p.driverId = d ∧ p.status = PayoutStatus.SUCCEEDED))).map
          (fun p => p.amount)).sum ∧
    (getDriverEarnings db d).availableBalance =
        max 0 ((getDriverEarnings db d).totalEarned - (getDriverEarnings db d).totalPaidOut) ∧
    ((getDriverEarnings db d).canWithdraw = true ↔
        5 ≤ (getDriverEarnings db d).availableBalance) := by
  unfold getDriverEarnings
  refine ⟨?_, ?_, ?_, ?_⟩
  · simp [foldl_earnStepFuel, foldl_earnStepCharging]
  · simp [foldl_payout_sum]
  · rfl
  · simp only [MIN_PAYOUT_AMOUNT]
    exact decide_eq_true_iff

/-! ## Status updates, cancellation and driver assignment -/

/-- Outcome of an HTTP controller handler: a payload with the post-commit
store, or an error status/message with the untouched store. -/
inductive HResp (α : Type) where
  | ok (val : α) (db : Db)
  | err (status : Nat) (msg : String) (db : Db)
  deriving Repr

/-- `prisma.order.update({ where: { id } })`: replace the (unique) row. -/
def putFuelOrder (db : Db) (id : String) (newOrder : FuelOrder) : Db :=
  { db with orders := db.orders.map (fun o => if o.id = id then newOrder else o) }

/-- `prisma.chargingOrder.update({ where: { id } })`. -/
def putChargingOrder (db : Db) (id : String) (newOrder : ChargingOrder) : Db :=
  { db with chargingOrders :=
      db.chargingOrders.map (fun o => if o.id = id then newOrder else o) }

/-- `driverController.updateFuelOrderStatus` (driver.controller.ts): scope
the lookup to `{id, driverId}`; stamp `deliveredAt` on DELIVERED and settle
COD/card-on-delivery payments; stamp `cancelledAt` on CANCELLED. -/
def driverUpdateFuelOrderStatus (db : Db) (driverId id : String)
    (status : OrderStatus) (now : Nat) : HResp FuelOrder :=
  match db.orders.find? (fun o => decide (o.id = id ∧ o.driverId = some driverId)) with
  | none => .err 404 "Order not found" db
  | some existing =>
    let newOrder : FuelOrder :=
      { existing with
        status := status
        deliveredAt := if status = .DELIVERED then some now else existing.deliveredAt
        paymentStatus :=
          if status = .DELIVERED ∧ existing.paymentStatus = .PENDING ∧
              existing.paymentMethod ≠ .ONLINE then .PAID
          else existing.paymentStatus
        cancelledAt := if status = .CANCELLED then some now else existing.cancelledAt }
    .ok newOrder (putFuelOrder db id newOrder)

/-- The `if (driverId) { ... }` validation block shared by the admin status
endpoints: when a driver id is supplied it must name an existing, available
and active driver; returns the error response to send, if any. -/
def validateDriverOpt (db : Db) (driverId : Option String) : Option (Nat × String) :=
  match driverId with
  | none => none
  | some did =>
    match db.drivers.find? (fun dr => decide (dr.id = did)) with
    | none => some (404, "Driver not found")
    | some driver =>
      if ¬(driver.isAvailable ∧ driver.isActive) then
        some (400, "Driver is not available")
      else none

/-- `adminController.updateOrderStatus` (admin.controller.ts): lookup by id,
optional driver validation and assignment, stamp `deliveredAt` and settle
COD payments on DELIVERED (this path stamps no `cancelledAt`). -/
def adminUpdateOrderStatus (db : Db) (id : String) (status : OrderStatus)
    (driverId : Option String) (now : Nat) : HResp FuelOrder :=
  match db.orders.find? (fun o => decide (o.id = id)) with
  | none => .err 404 "Order not found" db
  | some order =>
    match validateDriverOpt db driverId with
    | some e => .err e.1 e.2 db
    | none =>
      let newOrder : FuelOrder :=
        { order with
          status := status
          driverId := match driverId with
            | some d => some d
            | none => order.driverId
          deliveredAt := if status = .DELIVERED then some now else order.deliveredAt
          paymentStatus :=
            if status = .DELIVERED ∧ order.paymentStatus = .PENDING ∧
                order.paymentMethod ≠ .ONLINE then .PAID
            else order.paymentStatus }
      .ok newOrder (putFuelOrder db id newOrder)

/-- `driverController.updateChargingOrderStatus` (driver.controller.ts):
scope the lookup to `{id, driverId}`; stamp `startedAt`/`completedAt`/
`cancelledAt` and settle COD payments on COMPLETED. -/
def driverUpdateChargingOrderStatus (db : Db) (driverId id : String)
    (status : ChargingOrderStatus) (now : Nat) : HResp ChargingOrder :=
  match db.chargingOrders.find?
      (fun o => decide (o.id = id ∧ o.driverId = some driverId)) with
  | none => .err 404 "Order not found" db
  | some existing =>
    let newOrder : ChargingOrder :=
      { existing with
        status := status
        startedAt := if status = .IN_PROGRESS then some now else existing.startedAt
        completedAt := if status = .COMPLETED then some now else existing.completedAt
        paymentStatus :=
          if status = .COMPLETED ∧ existing.paymentStatus = .PENDING ∧
              existing.paymentMethod ≠ .ONLINE then .PAID
          else existing.paymentStatus
        cancelledAt := if status = .CANCELLED then some now else existing.cancelledAt }
    .ok newOrder (putChargingOrder db id newOrder)

/-- `adminController.updateChargingOrderStatus` (admin.controller.ts):
lookup by id, optional driver validation/assignment, stamp the status
timestamps and settle COD payments on COMPLETED. -/
def adminUpdateChargingOrderStatus (db : Db) (id : String)
    (status : ChargingOrderStatus) (driverId : Option String) (now : Nat) :
    HResp ChargingOrder :=
  match db.chargingOrders.find? (fun o => decide (o.id = id)) with
  | none => .err 404 "Order not found" db
  | some order =>
    match validateDriverOpt db driverId with
    | some e => .err e.1 e.2 db
    | none =>
      let newOrder : ChargingOrder :=
        { order with
          status := status
          driverId := match driverId with
            | some d => some d
            | none => order.driverId
          startedAt := if status = .IN_PROGRESS then some now else order.startedAt
          completedAt := if status = .COMPLETED then some now else order.completedAt
          cancelledAt := if status = .CANCELLED then some now else order.cancelledAt
          paymentStatus :=
            if status = .COMPLETED ∧ order.paymentStatus = .PENDING ∧
                order.paymentMethod ≠ .ONLINE then .PAID
            else order.paymentStatus }
      .ok newOrder (putChargingOrder db id newOrder)

/-- `chargingService.updateOrderStatus` (charging.service.ts, reached from
`chargingController.updateStatus` for admins and drivers): stamps
`startedAt` on IN_PROGRESS and `completedAt` on COMPLETED, optionally sets
`driverId`/`chargingUnitId`, and performs no payment-status settlement and
no `cancelledAt` stamp. -/
def chargingServiceUpdateOrderStatus (db : Db) (orderId : String)
    (status : ChargingOrderStatus) (driverId chargingUnitId : Option String)
    (now : Nat) : Except String (ChargingOrder × Db) :=
  if status = .IN_PROGRESS ∧ driverId = none then
    .error "Driver ID is required when starting charging"
  else
    match db.chargingOrders.find? (fun o => decide (o.id = orderId)) with
    | none => .error "Order not found"
    | some order =>
      let newOrder : ChargingOrder :=
        { order with
          status := status
          driverId := match driverId with
            | some d => some d
            | none => order.driverId
          chargingUnitId := match chargingUnitId with
            | some u => some u
            | none => order.chargingUnitId
          startedAt := if status = .IN_PROGRESS then some now else order.startedAt
          completedAt := if status = .COMPLETED then some now else order.completedAt }
      .ok (newOrder, putChargingOrder db orderId newOrder)

/-- `orderService.cancelOrder` (order.service.ts): customer-initiated fuel
cancellation, scoped to `{id, userId}`; DELIVERED, CANCELLED, DISPATCHED and
IN_TRANSIT are rejected before any write. -/
def cancelOrder (db : Db) (orderId userId : String) (reason : Option String)
    (now : Nat) : Except String (FuelOrder × Db) :=
  match db.orders.find? (fun o => decide (o.id = orderId ∧ o.userId = userId)) with
  | none => .error "Order not found"
  | some order =>
    if order.status = .DELIVERED then
      .error "Cannot cancel a delivered order"
    else if order.status = .CANCELLED then
      .error "Order is already cancelled"
    else if order.status = .DISPATCHED ∨ order.status = .IN_TRANSIT then
      .error "Cannot cancel order that is already dispatched"
    else
      let newOrder : FuelOrder :=
        { order with
          status := .CANCELLED
          cancelledAt := some now
          cancellationReason := reason }
      .ok (newOrder, putFuelOrder db orderId newOrder)

/-- `adminController.assignDriver` (admin.controller.ts): driver must exist
and be available and active; on success set `driverId` and advance a
PENDING order to CONFIRMED, leaving any other status unchanged. -/
def assignDriver (db : Db) (id driverId : String) : HResp FuelOrder :=
  match db.orders.find? (fun o => decide (o.id = id)) with
  | none => .err 404 "Order not found" db
  | some order =>
    match db.drivers.find? (fun dr => decide (dr.id = driverId)) with
    | none => .err 404 "Driver not found" db
    | some driver =>
      if ¬(driver.isAvailable ∧ driver.isActive) then
        .err 400 "Driver is not available" db
      else
        let newOrder : FuelOrder :=
          { order with
            driverId := some driverId
            status := if order.status = .PENDING then .CONFIRMED else order.status }
        .ok newOrder (putFuelOrder db id newOrder)

/-- `adminController.assignChargingOrderDriver` (admin.controller.ts): same
as `assignDriver`, advancing a PENDING charging order to ASSIGNED. -/
def assignChargingOrderDriver (db : Db) (id driverId : String) : HResp ChargingOrder :=
  match db.chargingOrders.find? (fun o => decide (o.id = id)) with
  | none => .err 404 "Order not found" db
  | some order =>
    match db.drivers.find? (fun dr => decide (dr.id = driverId)) with
    | none => .err 404 "Driver not found" db
    | some driver =>
      if ¬(driver.isAvailable ∧ driver.isActive) then
        .err 400 "Driver is not available" db
      else
        let newOrder : ChargingOrder :=
          { order with
            driverId := some driverId
            status := if order.status = .PENDING then .ASSIGNED else order.status }
        .ok newOrder (putChargingOrder db id newOrder)

/-! ### C3: completion timestamps and delivery-time payment settlement -/

/-- A COD charging order used to exhibit the `chargingService.updateOrderStatus`
settlement gap. -/
def exChargingOrder3 : ChargingOrder :=
  { id := "c3", userId := "u1", driverId := some "d1", chargingUnitId := none,
    orderNumber := "CHG-3", status := .ASSIGNED, paymentStatus := .PENDING,
    paymentMethod := .CASH_ON_DELIVERY, totalAmount := 50, baseFee := 45,
    deliveryFee := 5, tax := 0, tip := 0, startedAt := none, completedAt := none,
    cancelledAt := none, cancellationReason := none }

/-- Store holding only `exChargingOrder3`. -/
def exDb3 : Db := ⟨[], [exChargingOrder3], [], [], []⟩

/-- What `chargingService.updateOrderStatus` produces on COMPLETED: the
timestamp is stamped but the COD payment stays PENDING. -/
def exChargingOrder3' : ChargingOrder :=
  { exChargingOrder3 with status := .COMPLETED, completedAt := some 99 }

/-- C3 counterexample: completing a PENDING-payment, non-ONLINE charging
order through `chargingService.updateOrderStatus` (the path used by
`chargingController.updateStatus`) stamps `completedAt` but leaves
`paymentStatus = PENDING`, not PAID as the claim requires of every path. -/
theorem chargingService_cod_settlement_counterexample :
    chargingServiceUpdateOrderStatus exDb3 "c3" .COMPLETED (some "d1") none 99
        = .ok (exChargingOrder3', ⟨[], [exChargingOrder3'], [], [], []⟩) ∧
      exChargingOrder3.paymentStatus = .PENDING ∧
      exChargingOrder3.paymentMethod ≠ .ONLINE ∧
      exChargingOrder3'.completedAt = some 99 ∧
      exChargingOrder3'.paymentStatus = .PENDING := by
  refine ⟨?_, rfl, by decide, rfl, rfl⟩
  rfl

/-- C3 (amended): on the four controller paths (driver and admin, fuel
DELIVERED and charging COMPLETED) the completion timestamp is stamped and a
PENDING, non-ONLINE payment is settled to PAID; the fifth path,
`chargingService.updateOrderStatus`, stamps `completedAt` but leaves the
payment status unchanged. -/
theorem completion_stamps_and_cod_settlement (db : Db) (now : Nat) :
    (∀ drv id o o' db',
      db.orders.find? (fun x => decide (x.id = id ∧ x.driverId = some drv)) = some o →
      driverUpdateFuelOrderStatus db drv id .DELIVERED now = .ok o' db' →
      o'.deliveredAt = some now ∧
        o'.paymentStatus =
          (if o.paymentStatus = .PENDING ∧ o.paymentMethod ≠ .ONLINE then .PAID
           else o.paymentStatus)) ∧
    (∀ id driverId o o' db',
      db.orders.find? (fun x => decide (x.id = id)) = some o →
      adminUpdateOrderStatus db id .DELIVERED driverId now = .ok o' db' →
      o'.deliveredAt = some now ∧
        o'.paymentStatus =
          (if o.paymentStatus = .PENDING ∧ o.paymentMethod ≠ .ONLINE then .PAID
           else o.paymentStatus)) ∧
    (∀ drv id o o' db',
      db.chargingOrders.find?
          (fun x => decide (x.id = id ∧ x.driverId = some drv)) = some o →
      driverUpdateChargingOrderStatus db drv id .COMPLETED now = .ok o' db' →
      o'.completedAt = some now ∧
        o'.paymentStatus =
          (if o.paymentStatus = .PENDING ∧ o.paymentMethod ≠ .ONLINE then .PAID
           else o.paymentStatus)) ∧
    (∀ id driverId o o' db',
      db.chargingOrders.find? (fun x => decide (x.id = id)) = some o →
      adminUpdateChargingOrderStatus db id .COMPLETED driverId now = .ok o' db' →
      o'.completedAt = some now ∧
        o'.paymentStatus =
          (if o.paymentStatus = .PENDING ∧ o.paymentMethod ≠ .ONLINE then .PAID
           else o.paymentStatus)) ∧
    (∀ id driverId unitId o o' db',
      db.chargingOrders.find? (fun x => decide (x.id = id)) = some o →
      chargingServiceUpdateOrderStatus db id .COMPLETED driverId unitId now
          = .ok (o', db') →
      o'.completedAt = some now ∧ o'.paymentStatus = o.paymentStatus) := by
  refine ⟨?_, ?_, ?_, ?_, ?_⟩
  · intro drv id o o' db' hfind hok
    unfold driverUpdateFuelOrderStatus at hok
    rw [hfind] at hok
    simp only [HResp.ok.injEq] at hok
    obtain ⟨rfl, -⟩ := hok
    simp
  · intro id driverId o o' db' hfind hok
    unfold adminUpdateOrderStatus at hok
    rw [hfind] at hok
    cases hv : validateDriverOpt db driverId with
    | some e => rw [hv] at hok; simp at hok
    | none =>
      rw [hv] at hok
      simp only [HResp.ok.injEq] at hok
      obtain ⟨rfl, -⟩ := hok
      simp
  · intro drv id o o' db' hfind hok
    unfold driverUpdateChargingOrderStatus at hok
    rw [hfind] at hok
    simp only [HResp.ok.injEq] at hok
    obtain ⟨rfl, -⟩ := hok
    simp
  · intro id driverId o o' db' hfind hok
    unfold adminUpdateChargingOrderStatus at hok
    rw [hfind] at hok
    cases hv : validateDriverOpt db driverId with
    | some e => rw [hv] at hok; simp at hok
    | none =>
      rw [hv] at hok
      simp only [HResp.ok.injEq] at hok
      obtain ⟨rfl, -⟩ := hok
      simp
  · intro id driverId unitId o o' db' hfind hok
    unfold chargingServiceUpdateOrderStatus at hok
    rw [if_neg (by simp)] at hok
    rw [hfind] at hok
    simp only [Except.ok.injEq, Prod.mk.injEq] at hok
    obtain ⟨⟨rfl, -⟩, -⟩ := hok
    simp

/-- Available, active driver used by the status-update witnesses. -/
def wDriver : Driver :=
  { id := "d1", isAvailable := true, isActive := true, stripeConnectAccountId := none }

/-- COD fuel order in transit, assigned to d1 (witness input). -/
def wF1 : FuelOrder :=
  { id := "f1", userId := "u1", driverId := some "d1", orderNumber := "PT-1",
    status := .IN_TRANSIT, paymentStatus := .PENDING,
    paymentMethod := .CASH_ON_DELIVERY, totalAmount := 10, fuelCost := 5,
    deliveryFee := 3, tax := 1, tip := 1, deliveredAt := none,
    cancelledAt := none, cancellationReason := none }

/-- COD charging order in progress, assigned to d1 (witness input). -/
def wC1 : ChargingOrder :=
  { id := "c1", userId := "u1", driverId := some "d1", chargingUnitId := none,
    orderNumber := "CHG-1", status := .IN_PROGRESS, paymentStatus := .PENDING,
    paymentMethod := .CASH_ON_DELIVERY, totalAmount := 50, baseFee := 45,
    deliveryFee := 5, tax := 0, tip := 0, startedAt := some 3,
    completedAt := none, cancelledAt := none, cancellationReason := none }

/-- Witness store for the status-update theorems. -/
def wDb : Db := ⟨[wF1], [wC1], [wDriver], [], []⟩

/-- `wF1` after a controller-path DELIVERED update at time 7. -/
def wF1A : FuelOrder :=
  { wF1 with status := .DELIVERED, deliveredAt := some 7, paymentStatus := .PAID }

/-- `wC1` after a controller-path COMPLETED update at time 7. -/
def wC1A : ChargingOrder :=
  { wC1 with status := .COMPLETED, completedAt := some 7, paymentStatus := .PAID }

/-- `wC1` after `chargingService.updateOrderStatus` COMPLETED at time 7:
payment stays PENDING. -/
def wC1B : ChargingOrder :=
  { wC1 with status := .COMPLETED, completedAt := some 7 }

/-- Witness for `completion_stamps_and_cod_settlement` at concrete inputs. -/
theorem completion_stamps_and_cod_settlement_witness :
    (driverUpdateFuelOrderStatus wDb "d1" "f1" .DELIVERED 7
        = .ok wF1A (putFuelOrder wDb "f1" wF1A)) ∧
      wF1A.deliveredAt = some 7 ∧ wF1A.paymentStatus = .PAID ∧
    (adminUpdateOrderStatus wDb "f1" .DELIVERED none 7
        = .ok wF1A (putFuelOrder wDb "f1" wF1A)) ∧
    (driverUpdateChargingOrderStatus wDb "d1" "c1" .COMPLETED 7
        = .ok wC1A (putChargingOrder wDb "c1" wC1A)) ∧
      wC1A.completedAt = some 7 ∧ wC1A.paymentStatus = .PAID ∧
    (adminUpdateChargingOrderStatus wDb "c1" .COMPLETED none 7
        = .ok wC1A (putChargingOrder wDb "c1" wC1A)) ∧
    (chargingServiceUpdateOrderStatus wDb "c1" .COMPLETED (some "d1") none 7
        = .ok (wC1B, putChargingOrder wDb "c1" wC1B)) ∧
      wC1B.completedAt = some 7 ∧ wC1B.paymentStatus = .PENDING := by
  have h := completion_stamps_and_cod_settlement wDb 7
  refine ⟨rfl, ?_, ?_, rfl, rfl, ?_, ?_, rfl, rfl, ?_, rfl⟩
  · exact (h.1 "d1" "f1" wF1 wF1A (putFuelOrder wDb "f1" wF1A) rfl rfl).1
  · exact ((h.1 "d1" "f1" wF1 wF1A (putFuelOrder wDb "f1" wF1A) rfl rfl).2).trans (by decide)
  · exact (h.2.2.1 "d1" "c1" wC1 wC1A (putChargingOrder wDb "c1" wC1A) rfl rfl).1
  · exact ((h.2.2.1 "d1" "c1" wC1 wC1A (putChargingOrder wDb "c1" wC1A) rfl rfl).2).trans
      (by decide)
  · exact (h.2.2.2.2 "c1" (some "d1") none wC1 wC1B (putChargingOrder wDb "c1" wC1B)
      rfl rfl).1

/-! ### C6: customer-initiated fuel-order cancellation -/

/-- C6: customer cancellation is rejected (`IllegalCancellation`, surfaced as
one of the three conflict messages, with no write) exactly when the order is
DISPATCHED, IN_TRANSIT, DELIVERED or already CANCELLED; every other status
cancels, stamping `cancelledAt` and recording the reason. -/
theorem cancelOrder_customer_rules (db : Db) (orderId userId : String)
    (reason : Option String) (now : Nat) (o : FuelOrder)
    (hfind : db.orders.find? (fun x => decide (x.id = orderId ∧ x.userId = userId))
      = some o) :
    ((o.status = .DISPATCHED ∨ o.status = .IN_TRANSIT ∨ o.status = .DELIVERED ∨
        o.status = .CANCELLED) →
      ∃ msg ∈ ["Cannot cancel a delivered order", "Order is already cancelled",
          "Cannot cancel order that is already dispatched"],
        cancelOrder db orderId userId reason now = .error msg) ∧
    ((o.status ≠ .DISPATCHED ∧ o.status ≠ .IN_TRANSIT ∧ o.status ≠ .DELIVERED ∧
        o.status ≠ .CANCELLED) →
      cancelOrder db orderId userId reason now =
        .ok ({ o with status := .CANCELLED, cancelledAt := some now, cancellationReason := reason },
          putFuelOrder db orderId
            { o with status := .CANCELLED, cancelledAt := some now, cancellationReason := reason })) := by
  constructor
  · rintro (h | h | h | h)
    · exact ⟨"Cannot cancel order that is already dispatched", by simp,
        by unfold cancelOrder; rw [hfind]; simp [h]⟩
    · exact ⟨"Cannot cancel order that is already dispatched", by simp,
        by unfold cancelOrder; rw [hfind]; simp [h]⟩
    · exact ⟨"Cannot cancel a delivered order", by simp,
        by unfold cancelOrder; rw [hfind]; simp [h]⟩
    · exact ⟨"Order is already cancelled", by simp,
        by unfold cancelOrder; rw [hfind]; simp [h]⟩
  · rintro ⟨h1, h2, h3, h4⟩
    unfold cancelOrder
    rw [hfind]
    simp [h1, h2, h3, h4]

/-- Dispatched order used to witness the cancellation rules. -/
def exOrder6a : FuelOrder :=
  { id := "f6a", userId := "u1", driverId := some "d1", orderNumber := "PT-6A",
    status := .DISPATCHED, paymentStatus := .PENDING,
    paymentMethod := .CASH_ON_DELIVERY, totalAmount := 10, fuelCost := 5,
    deliveryFee := 3, tax := 1, tip := 1, deliveredAt := none,
    cancelledAt := none, cancellationReason := none }

/-- Pending order used to witness the cancellation rules. -/
def exOrder6b : FuelOrder :=
  { exOrder6a with id := "f6b", orderNumber := "PT-6B", status := .PENDING }

/-- Witness store for the cancellation rules. -/
def exDb6 : Db := ⟨[exOrder6a, exOrder6b], [], [], [], []⟩

/-- Witness for `cancelOrder_customer_rules`: a DISPATCHED order is refused,
a PENDING order cancels. -/
theorem cancelOrder_customer_rules_witness :
    (∃ msg ∈ ["Cannot cancel a delivered order", "Order is already cancelled",
        "Cannot cancel order that is already dispatched"],
      cancelOrder exDb6 "f6a" "u1" (some "changed my mind") 9 = .error msg) ∧
    cancelOrder exDb6 "f6b" "u1" (some "changed my mind") 9 =
      .ok ({ exOrder6b with status := .CANCELLED, cancelledAt := some 9, cancellationReason := some "changed my mind" },
        putFuelOrder exDb6 "f6b"
          { exOrder6b with status := .CANCELLED, cancelledAt := some 9, cancellationReason := some "changed my mind" }) := by
  constructor
  · exact (cancelOrder_customer_rules exDb6 "f6a" "u1" (some "changed my mind") 9
      exOrder6a rfl).1 (Or.inl rfl)
  · exact (cancelOrder_customer_rules exDb6 "f6b" "u1" (some "changed my mind") 9
      exOrder6b rfl).2 ⟨by decide, by decide, by decide, by decide⟩

/-! ### C8: mutations are scoped to the calling principal by lookup key -/

/-- C8: when an order with the given id exists but belongs to a different
customer (for customer cancel) or is assigned to a different driver (for the
driver status updates), the scoped `findFirst` misses, the call fails with
"Order not found", and the store is untouched. -/
theorem ownership_scoped_lookups (db : Db) (now : Nat) :
    (∀ orderId userId reason,
      (∃ o ∈ db.orders, o.id = orderId) →
      (∀ o ∈ db.orders, o.id = orderId → o.userId ≠ userId) →
      cancelOrder db orderId userId reason now = .error "Order not found") ∧
    (∀ drv id status,
      (∃ o ∈ db.orders, o.id = id) →
      (∀ o ∈ db.orders, o.id = id → o.driverId ≠ some drv) →
      driverUpdateFuelOrderStatus db drv id status now
        = .err 404 "Order not found" db) ∧
    (∀ drv id status,
      (∃ o ∈ db.chargingOrders, o.id = id) →
      (∀ o ∈ db.chargingOrders, o.id = id → o.driverId ≠ some drv) →
      driverUpdateChargingOrderStatus db drv id status now
        = .err 404 "Order not found" db) := by
  refine ⟨?_, ?_, ?_⟩
  · intro orderId userId reason _ hmiss
    have hnone : db.orders.find?
        (fun x => decide (x.id = orderId ∧ x.userId = userId)) = none := by
      rw [List.find?_eq_none]
      intro o ho
      simp only [decide_eq_true_eq, not_and]
      intro hid
      exact hmiss o ho hid
    unfold cancelOrder
    rw [hnone]
  · intro drv id status _ hmiss
    have hnone : db.orders.find?
        (fun x => decide (x.id = id ∧ x.driverId = some drv)) = none := by
      rw [List.find?_eq_none]
      intro o ho
      simp only [decide_eq_true_eq, not_and]
      intro hid
      exact hmiss o ho hid
    unfold driverUpdateFuelOrderStatus
    rw [hnone]
  · intro drv id status _ hmiss
    have hnone : db.chargingOrders.find?
        (fun x => decide (x.id = id ∧ x.driverId = some drv)) = none := by
      rw [List.find?_eq_none]
      intro o ho
      simp only [decide_eq_true_eq, not_and]
      intro hid
      exact hmiss o ho hid
    unfold driverUpdateChargingOrderStatus
    rw [hnone]

/-- Store for the scoping witness: a fuel order owned by u1/d1 and a
charging order owned by u1/d1. -/
def exDb8 : Db := ⟨[wF1], [wC1], [wDriver], [], []⟩

/-- Witness for `ownership_scoped_lookups`: a stranger (u2) cannot cancel
u1's order, and a different driver (d2) cannot update d1's orders. -/
theorem ownership_scoped_lookups_witness :
    cancelOrder exDb8 "f1" "u2" none 9 = .error "Order not found" ∧
    driverUpdateFuelOrderStatus exDb8 "d2" "f1" .DELIVERED 9
      = .err 404 "Order not found" exDb8 ∧
    driverUpdateChargingOrderStatus exDb8 "d2" "c1" .COMPLETED 9
      = .err 404 "Order not found" exDb8 := by
  have h := ownership_scoped_lookups exDb8 9
  refine ⟨?_, ?_, ?_⟩
  · exact h.1 "f1" "u2" none ⟨wF1, by simp [exDb8], rfl⟩
      (by intro o ho hid; simp [exDb8] at ho; subst ho; simp [wF1])
  · exact h.2.1 "d2" "f1" .DELIVERED ⟨wF1, by simp [exDb8], rfl⟩
      (by intro o ho hid; simp [exDb8] at ho; subst ho; simp [wF1])
  · exact h.2.2 "d2" "c1" .COMPLETED ⟨wC1, by simp [exDb8], rfl⟩
      (by intro o ho hid; simp [exDb8] at ho; subst ho; simp [wC1])

/-! ### C4: driver assignment -/

/-- Pending fuel order with no driver (assignment inputs). -/
def exOrder4 : FuelOrder :=
  { id := "f4", userId := "u1", driverId := none, orderNumber := "PT-4",
    status := .PENDING, paymentStatus := .PENDING,
    paymentMethod := .CASH_ON_DELIVERY, totalAmount := 10, fuelCost := 5,
    deliveryFee := 3, tax := 1, tip := 1, deliveredAt := none,
    cancelledAt := none, cancellationReason := none }

/-- Store with the pending order and no drivers at all. -/
def exDb4 : Db := ⟨[exOrder4], [], [], [], []⟩

/-- C4 counterexample: assigning a driver id that names no driver row fails
with the 404 "Driver not found" response, not the 400 "Driver is not
available" (`DriverUnavailable`) response the claim prescribes for every
failing assignment; the store (hence the order's driverId and status) is
returned untouched. -/
theorem assignDriver_missing_driver_counterexample :
    assignDriver exDb4 "f4" "ghost" = .err 404 "Driver not found" exDb4 ∧
      (HResp.err 404 "Driver not found" exDb4 : HResp FuelOrder) ≠
        .err 400 "Driver is not available" exDb4 := by
  constructor
  · rfl
  · simp

/-- C4 (amended): assignment of a nonexistent driver fails 404
"Driver not found"; an existing driver that is not both available and active
fails 400 "Driver is not available" (`DriverUnavailable`); both failures
leave the store untouched.  A valid assignment sets the order's driverId
and advances PENDING to CONFIRMED (fuel) / ASSIGNED (charging), leaving any
other status unchanged.  This holds for both order types. -/
theorem assignDriver_rules (db : Db) (id driverId : String) :
    (∀ o, db.orders.find? (fun x => decide (x.id = id)) = some o →
      ((db.drivers.find? (fun dr => decide (dr.id = driverId)) = none →
        assignDriver db id driverId = .err 404 "Driver not found" db) ∧
      (∀ dr, db.drivers.find? (fun x => decide (x.id = driverId)) = some dr →
        ¬(dr.isAvailable ∧ dr.isActive) →
        assignDriver db id driverId = .err 400 "Driver is not available" db) ∧
      (∀ dr, db.drivers.find? (fun x => decide (x.id = driverId)) = some dr →
        dr.isAvailable → dr.isActive →
        assignDriver db id driverId =
          .ok { o with driverId := some driverId, status := if o.status = .PENDING then .CONFIRMED else o.status }
            (putFuelOrder db id
              { o with driverId := some driverId, status := if o.status = .PENDING then .CONFIRMED else o.status })))) ∧
    (∀ o, db.chargingOrders.find? (fun x => decide (x.id = id)) = some o →
      ((db.drivers.find? (fun dr => decide (dr.id = driverId)) = none →
        assignChargingOrderDriver db id driverId = .err 404 "Driver not found" db) ∧
      (∀ dr, db.drivers.find? (fun x => decide (x.id = driverId)) = some dr →
        ¬(dr.isAvailable ∧ dr.isActive) →
        assignChargingOrderDriver db id driverId
          = .err 400 "Driver is not available" db) ∧
      (∀ dr, db.drivers.find? (fun x => decide (x.id = driverId)) = some dr →
        dr.isAvailable → dr.isActive →
        assignChargingOrderDriver db id driverId =
          .ok { o with driverId := some driverId, status := if o.status = .PENDING then .ASSIGNED else o.status }
            (putChargingOrder db id
              { o with driverId := some driverId, status := if o.status = .PENDING then .ASSIGNED else o.status })))) := by
  constructor
  · intro o hfind
    refine ⟨?_, ?_, ?_⟩
    · intro hnone
      unfold assignDriver
      rw [hfind, hnone]
    · intro dr hdr hbad
      unfold assignDriver
      rw [hfind, hdr]
      simp only [if_pos hbad]
    · intro dr hdr hav hact
      unfold assignDriver
      rw [hfind, hdr]
      have hcond : ¬¬(dr.isAvailable = true ∧ dr.isActive = true) := by simp [hav, hact]
      simp only [if_neg hcond]
  · intro o hfind
    refine ⟨?_, ?_, ?_⟩
    · intro hnone
      unfold assignChargingOrderDriver
      rw [hfind, hnone]
    · intro dr hdr hbad
      unfold assignChargingOrderDriver
      rw [hfind, hdr]
      simp only [if_pos hbad]
    · intro dr hdr hav hact
      unfold assignChargingOrderDriver
      rw [hfind, hdr]
      have hcond : ¬¬(dr.isAvailable = true ∧ dr.isActive = true) := by simp [hav, hact]
      simp only [if_neg hcond]

/-- An existing but unavailable driver. -/
def exDriverOff : Driver :=
  { id := "doff", isAvailable := false, isActive := true,
    stripeConnectAccountId := none }

/-- Pending charging order with no driver (assignment inputs). -/
def exCharging4 : ChargingOrder :=
  { id := "c4", userId := "u1", driverId := none, chargingUnitId := none,
    orderNumber := "CHG-4", status := .PENDING, paymentStatus := .PENDING,
    paymentMethod := .CASH_ON_DELIVERY, totalAmount := 50, baseFee := 45,
    deliveryFee := 5, tax := 0, tip := 0, startedAt := none,
    completedAt := none, cancelledAt := none, cancellationReason := none }

/-- Store with one pending order of each type, an unavailable driver and an
available one. -/
def exDb4b : Db := ⟨[exOrder4], [exCharging4], [exDriverOff, wDriver], [], []⟩

/-- Witness for `assignDriver_rules` at concrete inputs: unavailable driver
refused, available driver assigned with PENDING advanced. -/
theorem assignDriver_rules_witness :
    assignDriver exDb4b "f4" "doff" = .err 400 "Driver is not available" exDb4b ∧
    assignDriver exDb4b "f4" "d1" =
      .ok { exOrder4 with driverId := some "d1", status := .CONFIRMED }
        (putFuelOrder exDb4b "f4" { exOrder4 with driverId := some "d1", status := .CONFIRMED }) ∧
    assignChargingOrderDriver exDb4b "c4" "ghost"
      = .err 404 "Driver not found" exDb4b ∧
    assignChargingOrderDriver exDb4b "c4" "d1" =
      .ok { exCharging4 with driverId := some "d1", status := .ASSIGNED }
        (putChargingOrder exDb4b "c4" { exCharging4 with driverId := some "d1", status := .ASSIGNED }) := by
  refine ⟨?_, ?_, ?_, ?_⟩
  · exact ((assignDriver_rules exDb4b "f4" "doff").1 exOrder4 rfl).2.1 exDriverOff rfl
      (by decide)
  · exact ((assignDriver_rules exDb4b "f4" "d1").1 exOrder4 rfl).2.2 wDriver rfl
      (by decide) (by decide)
  · exact ((assignDriver_rules exDb4b "c4" "ghost").2 exCharging4 rfl).1 rfl
  · exact ((assignDriver_rules exDb4b "c4" "d1").2 exCharging4 rfl).2.2 wDriver rfl
      (by decide) (by decide)

/-! ### C7: the recent-earnings feed -/

/-- The list of feed entries the two earnings loops accumulate (see
`foldl_earnStepFuel` and `foldl_earnStepCharging`): the driver's qualifying
orders of either type whose `deliveryFee + tip` is positive, mapped to their
feed entries, fuel entries first. -/
def qualifyingFeedEntries (db : Db) (d : String) : List RecentEarning :=
  ((db.orders.filter (fuelEarnQual d)).filter
      (fun o => decide (0 < o.deliveryFee + o.tip))).map fuelEntry ++
  ((db.chargingOrders.filter (chargingEarnQual d)).filter
      (fun o => decide (0 < o.deliveryFee + o.tip))).map chargingEntry

/-- The feed produced by `getDriverEarnings`, spelled out: positive-amount
entries of the qualifying orders, date-descending, first 20. -/
theorem getDriverEarnings_recentEarnings_eq (db : Db) (d : String) :
    (getDriverEarnings db d).recentEarnings =
      (List.insertionSort earnGE (qualifyingFeedEntries db d)).take 20 := by
  unfold getDriverEarnings qualifyingFeedEntries
  simp only [foldl_earnStepFuel, foldl_earnStepCharging, List.nil_append]

/-- C7 (amended): the recent-earnings feed is the most recent 20 of the
driver's qualifying orders (fuel DELIVERED∧PAID, charging COMPLETED∧PAID)
**whose `deliveryFee + tip` is positive** — zero-amount qualifying orders
are skipped — sorted by completion time descending (a missing completion
time sorts last).  Stated as: the feed is exactly the first 20 of the
date-descending sort of the positive qualifying entries; it is sorted
descending; it is drawn from those entries without duplication; each entry
is sound; its length is `min 20 (number of positive qualifying orders)`;
and every positive qualifying entry left out of the feed is no more recent
than any entry in it. -/
theorem getDriverEarnings_recent_feed (db : Db) (d : String) :
    (getDriverEarnings db d).recentEarnings =
      (List.insertionSort earnGE (qualifyingFeedEntries db d)).take 20 ∧
    List.Sorted earnGE (getDriverEarnings db d).recentEarnings ∧
    List.Subperm (getDriverEarnings db d).recentEarnings (qualifyingFeedEntries db d) ∧
    (∀ e ∈ (getDriverEarnings db d).recentEarnings,
      (∃ o ∈ db.orders, fuelEarnQual d o = true ∧ 0 < o.deliveryFee + o.tip ∧
        e = fuelEntry o) ∨
      (∃ o ∈ db.chargingOrders, chargingEarnQual d o = true ∧
        0 < o.deliveryFee + o.tip ∧ e = chargingEntry o)) ∧
    (getDriverEarnings db d).recentEarnings.length =
      min 20
        (((db.orders.filter (fuelEarnQual d)).filter
            (fun o => decide (0 < o.deliveryFee + o.tip))).length +
         ((db.chargingOrders.filter (chargingEarnQual d)).filter
            (fun o => decide (0 < o.deliveryFee + o.tip))).length) ∧
    (∀ x : RecentEarning,
      x ∈ (qualifyingFeedEntries db d : Multiset RecentEarning) -
          ((getDriverEarnings db d).recentEarnings : Multiset RecentEarning) →
      ∀ e ∈ (getDriverEarnings db d).recentEarnings, earnGE e x) := by
  have heq := getDriverEarnings_recentEarnings_eq db d
  refine ⟨heq, ?_, ?_, ?_, ?_, ?_⟩
  · rw [heq]
    exact List.Pairwise.sublist (List.take_sublist _ _)
      (List.sorted_insertionSort earnGE _)
  · rw [heq]
    exact ((List.take_sublist _ _).subperm).trans
      (List.perm_insertionSort earnGE _).subperm
  · rw [heq]
    intro e he
    have h1 : e ∈ List.insertionSort earnGE _ := List.mem_of_mem_take he
    have h2 := (List.perm_insertionSort earnGE _).mem_iff.mp h1
    rcases List.mem_append.mp h2 with hf | hc
    · left
      obtain ⟨o, hmem, rfl⟩ := List.mem_map.mp hf
      have hm1 := List.mem_filter.mp hmem
      have hm2 := List.mem_filter.mp hm1.1
      exact ⟨o, hm2.1, hm2.2, by simpa using hm1.2, rfl⟩
    · right
      obtain ⟨o, hmem, rfl⟩ := List.mem_map.mp hc
      have hm1 := List.mem_filter.mp hmem
      have hm2 := List.mem_filter.mp hm1.1
      exact ⟨o, hm2.1, hm2.2, by simpa using hm1.2, rfl⟩
  · rw [heq, List.length_take, (List.perm_insertionSort earnGE _).length_eq,
      qualifyingFeedEntries, List.length_append, List.length_map, List.length_map]
  · intro x hx e he
    rw [heq] at hx he
    have hcoe : (qualifyingFeedEntries db d : Multiset RecentEarning) =
        (List.insertionSort earnGE (qualifyingFeedEntries db d) : Multiset RecentEarning) :=
      Multiset.coe_eq_coe.mpr (List.perm_insertionSort earnGE _).symm
    have hsplit : (List.insertionSort earnGE (qualifyingFeedEntries db d) :
          Multiset RecentEarning) -
        ↑(List.take 20 (List.insertionSort earnGE (qualifyingFeedEntries db d))) =
        ↑(List.drop 20 (List.insertionSort earnGE (qualifyingFeedEntries db d))) := by
      have h1 : (List.insertionSort earnGE (qualifyingFeedEntries db d) :
            Multiset RecentEarning) =
          ↑(List.take 20 (List.insertionSort earnGE (qualifyingFeedEntries db d))) +
          ↑(List.drop 20 (List.insertionSort earnGE (qualifyingFeedEntries db d))) := by
        rw [Multiset.coe_add, List.take_append_drop]
      rw [h1, add_tsub_cancel_left]
    rw [hcoe, hsplit, Multiset.mem_coe] at hx
    have hsorted : List.Pairwise earnGE
        (List.insertionSort earnGE (qualifyingFeedEntries db d)) :=
      List.sorted_insertionSort earnGE _
    rw [← List.take_append_drop 20
        (List.insertionSort earnGE (qualifyingFeedEntries db d))] at hsorted
    exact (List.pairwise_append.mp hsorted).2.2 e he x hx

/-- A qualifying (DELIVERED, PAID) fuel order whose `deliveryFee + tip` is
zero. -/
def exOrder7 : FuelOrder :=
  { id := "f7", userId := "u1", driverId := some "d1", orderNumber := "PT-7",
    status := .DELIVERED, paymentStatus := .PAID,
    paymentMethod := .CASH_ON_DELIVERY, totalAmount := 10, fuelCost := 10,
    deliveryFee := 0, tax := 0, tip := 0, deliveredAt := some 5,
    cancelledAt := none, cancellationReason := none }

/-- Store holding only `exOrder7`. -/
def exDb7 : Db := ⟨[exOrder7], [], [], [], []⟩

/-- C7 counterexample: `exOrder7` is d1's only qualifying order, so the
claimed feed (the most recent 20 qualifying orders) would contain it, yet
`getDriverEarnings` returns an empty feed because the order's
`deliveryFee + tip` is zero. -/
theorem recent_feed_omits_zero_amount_counterexample :
    exOrder7 ∈ exDb7.orders ∧ fuelEarnQual "d1" exOrder7 = true ∧
      (getDriverEarnings exDb7 "d1").recentEarnings = [] := by
  refine ⟨by simp [exDb7], by decide, ?_⟩
  rw [getDriverEarnings_recentEarnings_eq]
  norm_num [qualifyingFeedEntries, exDb7, exOrder7, fuelEarnQual]

/-- A qualifying fuel order with positive `deliveryFee + tip`. -/
def exOrder7b : FuelOrder :=
  { exOrder7 with id := "f7b", orderNumber := "PT-7B", deliveryFee := 3, tip := 2, deliveredAt := some 6 }

/-- Store holding only `exOrder7b`. -/
def exDb7b : Db := ⟨[exOrder7b], [], [], [], []⟩

/-- Witness for `getDriverEarnings_recent_feed` at a concrete input. -/
theorem getDriverEarnings_recent_feed_witness :
    fuelEntry exOrder7b ∈ (getDriverEarnings exDb7b "d1").recentEarnings ∧
    ((∃ o ∈ exDb7b.orders, fuelEarnQual "d1" o = true ∧ 0 < o.deliveryFee + o.tip ∧
        fuelEntry exOrder7b = fuelEntry o) ∨
      (∃ o ∈ exDb7b.chargingOrders, chargingEarnQual "d1" o = true ∧
        0 < o.deliveryFee + o.tip ∧ fuelEntry exOrder7b = chargingEntry o)) := by
  have hmem : fuelEntry exOrder7b ∈ (getDriverEarnings exDb7b "d1").recentEarnings := by
    rw [getDriverEarnings_recentEarnings_eq]
    norm_num [qualifyingFeedEntries, exDb7b, exOrder7b, exOrder7, fuelEarnQual,
      List.insertionSort, List.orderedInsert]
  exact ⟨hmem, (getDriverEarnings_recent_feed exDb7b "d1").2.2.2.1 (fuelEntry exOrder7b) hmem⟩

/-! ### C9: the payment-status synchronizer defaults to fuel -/

/-- The two payment order types. -/
inductive PaymentOrderType
  | fuel | charging
  deriving DecidableEq, Repr

/-- `normalizeOrderType` (stripe.service.ts): anything other than the exact
string "charging" — absent, empty or unrecognized — is fuel. -/
def normalizeOrderType (v : Option String) : PaymentOrderType :=
  if v = some "charging" then .charging else .fuel

/-- The retrieved payment intent as the synchronizer sees it: its metadata
strings and whether `paymentIntent.status === 'succeeded'`. -/
structure PaymentIntent where
  orderId : Option String
  orderType : Option String
  succeeded : Bool
  deriving DecidableEq, Repr

/-- `prisma.order.update({where: {id}, data: {paymentStatus}})`; a missing
row makes Prisma throw, surfaced as the service's thrown error. -/
def setFuelPaymentStatus (db : Db) (orderId : String) (ps : PaymentStatus) :
    Except String Db :=
  match db.orders.find? (fun o => decide (o.id = orderId)) with
  | none => .error "Record to update not found"
  | some o => .ok (putFuelOrder db orderId { o with paymentStatus := ps })

/-- `prisma.chargingOrder.update({where: {id}, data: {paymentStatus}})`. -/
def setChargingPaymentStatus (db : Db) (orderId : String) (ps : PaymentStatus) :
    Except String Db :=
  match db.chargingOrders.find? (fun o => decide (o.id = orderId)) with
  | none => .error "Record to update not found"
  | some o => .ok (putChargingOrder db orderId { o with paymentStatus := ps })

/-- `stripeService.confirmPayment` (stripe.service.ts): route by
`normalizeOrderType(metadata.orderType)` and set the order's payment status
to PAID when the intent succeeded, FAILED otherwise; returns the success
flag. An absent or empty `metadata.orderId` throws. -/
def confirmPayment (db : Db) (pi : PaymentIntent) : Except String (Bool × Db) :=
  match pi.orderId with
  | none => .error "Order ID not found in payment intent metadata"
  | some orderId =>
    if orderId = "" then .error "Order ID not found in payment intent metadata"
    else
      let ps : PaymentStatus := if pi.succeeded then .PAID else .FAILED
      match normalizeOrderType pi.orderType with
      | .charging => (setChargingPaymentStatus db orderId ps).map
          (fun db' => (pi.succeeded, db'))
      | .fuel => (setFuelPaymentStatus db orderId ps).map
          (fun db' => (pi.succeeded, db'))

/-- A Stripe webhook event as dispatched by `handleWebhook`'s switch. -/
inductive StripeEvent
  | paymentIntentSucceeded (pi : PaymentIntent)
  | paymentIntentFailed (pi : PaymentIntent)
  | other (eventType : String)
  deriving DecidableEq, Repr

/-- `stripeService.handleWebhook` (stripe.service.ts): on
`payment_intent.succeeded` / `payment_intent.payment_failed` with a truthy
`metadata.orderId`, route by the normalized order type and set PAID/FAILED;
other events (and intents without an orderId) are ignored. -/
def handleWebhook (db : Db) (event : StripeEvent) : Except String Db :=
  match event with
  | .paymentIntentSucceeded pi =>
    match pi.orderId with
    | none => .ok db
    | some oid =>
      if oid = "" then .ok db
      else match normalizeOrderType pi.orderType with
        | .charging => setChargingPaymentStatus db oid .PAID
        | .fuel => setFuelPaymentStatus db oid .PAID
  | .paymentIntentFailed pi =>
    match pi.orderId with
    | none => .ok db
    | some oid =>
      if oid = "" then .ok db
      else match normalizeOrderType pi.orderType with
        | .charging => setChargingPaymentStatus db oid .FAILED
        | .fuel => setFuelPaymentStatus db oid .FAILED
  | .other _ => .ok db

/-- C9: any `metadata.orderType` other than the exact string "charging"
normalizes to fuel, so confirmation and both webhook callbacks update the
fuel order with the given id (the charging table is untouched, and the
updated store is the fuel-order update). -/
theorem paymentSync_defaults_to_fuel (db : Db) (pi : PaymentIntent) (oid : String)
    (hid : pi.orderId = some oid) (hne : oid ≠ "")
    (hty : pi.orderType ≠ some "charging") :
    normalizeOrderType pi.orderType = .fuel ∧
    confirmPayment db pi =
      (setFuelPaymentStatus db oid (if pi.succeeded then .PAID else .FAILED)).map
        (fun db' => (pi.succeeded, db')) ∧
    handleWebhook db (.paymentIntentSucceeded pi) = setFuelPaymentStatus db oid .PAID ∧
    handleWebhook db (.paymentIntentFailed pi) = setFuelPaymentStatus db oid .FAILED ∧
    (∀ ps o, db.orders.find? (fun x => decide (x.id = oid)) = some o →
      setFuelPaymentStatus db oid ps =
        .ok (putFuelOrder db oid { o with paymentStatus := ps }) ∧
      (putFuelOrder db oid { o with paymentStatus := ps }).chargingOrders =
        db.chargingOrders) := by
  have hnorm : normalizeOrderType pi.orderType = .fuel := by
    unfold normalizeOrderType
    rw [if_neg hty]
  refine ⟨hnorm, ?_, ?_, ?_, ?_⟩
  · unfold confirmPayment
    rw [hid]
    simp only [if_neg hne, hnorm]
  · simp only [handleWebhook]
    rw [hid]
    simp only [if_neg hne, hnorm]
  · simp only [handleWebhook]
    rw [hid]
    simp only [if_neg hne, hnorm]
  · intro ps o hfind
    constructor
    · unfold setFuelPaymentStatus
      rw [hfind]
    · simp [putFuelOrder]

/-- The intent used to witness `paymentSync_defaults_to_fuel`: its
`orderType` is the unrecognized string "fuel-order". -/
def exIntent9 : PaymentIntent :=
  { orderId := some "f1", orderType := some "fuel-order", succeeded := true }

/-- Witness for `paymentSync_defaults_to_fuel` at a concrete input
(store `exDb8` holds fuel order "f1"). -/
theorem paymentSync_defaults_to_fuel_witness :
    normalizeOrderType exIntent9.orderType = .fuel ∧
    confirmPayment exDb8 exIntent9 =
      .ok (true, putFuelOrder exDb8 "f1" { wF1 with paymentStatus := .PAID }) ∧
    (putFuelOrder exDb8 "f1" { wF1 with paymentStatus := .PAID }).chargingOrders =
      exDb8.chargingOrders := by
  have h := paymentSync_defaults_to_fuel exDb8 exIntent9 "f1" rfl (by decide) (by decide)
  have heff := h.2.2.2.2 .PAID wF1 rfl
  refine ⟨h.1, ?_, heff.2⟩
  rw [h.2.1]
  have hsucc : (if exIntent9.succeeded = true then PaymentStatus.PAID
      else PaymentStatus.FAILED) = .PAID := rfl
  rw [hsucc, heff.1]
  rfl

/-! ### C10: driver-location validation -/

/-- The result of applying JS `Number(...)` to a request-body field: the
field may be absent (`Number(undefined)` is NaN), may coerce to NaN or
±Infinity, or may coerce to a finite number. -/
inductive JsNumInput
  | missing
  | nonFinite
  | finite (q : ℚ)
  deriving DecidableEq, Repr

/-- `Number.isFinite` after coercion: only a finite number passes (NaN and
±Infinity — including from an absent field — are rejected). -/
def coerceFinite : JsNumInput → Option ℚ
  | .finite q => some q
  | _ => none

/-- `driverController.updateLocation` (driver.controller.ts): reject
non-finite latitude/longitude, then out-of-range values, before upserting
the driver's single location row (the auxiliary accuracy/heading/speed
fields are taken post-coercion). -/
def updateLocation (db : Db) (driverId : String) (lat lon : JsNumInput)
    (accuracy heading speed : Option ℚ) : HResp DriverLocation :=
  match coerceFinite lat, coerceFinite lon with
  | some la, some lo =>
    if la < -90 ∨ la > 90 ∨ lo < -180 ∨ lo > 180 then
      .err 400 "Invalid latitude/longitude" db
    else
      let newLoc : DriverLocation :=
        { driverId := driverId, latitude := la, longitude := lo,
          accuracy := accuracy, heading := heading, speed := speed }
      match db.locations.find? (fun l => decide (l.driverId = driverId)) with
      | some _ => .ok newLoc
          { db with locations :=
              db.locations.map (fun l => if l.driverId = driverId then newLoc else l) }
      | none => .ok newLoc { db with locations := db.locations ++ [newLoc] }
  | _, _ => .err 400 "latitude and longitude are required" db

/-- C10: an absent or non-finite latitude/longitude fails with a 400
validation error before any write, and a finite but out-of-range latitude
(outside [−90, 90]) or longitude (outside [−180, 180]) fails with a 400
validation error before any write; both leave the location table untouched. -/
theorem updateLocation_validation (db : Db) (driverId : String)
    (lat lon : JsNumInput) (accuracy heading speed : Option ℚ) :
    ((coerceFinite lat = none ∨ coerceFinite lon = none) →
      updateLocation db driverId lat lon accuracy heading speed =
        .err 400 "latitude and longitude are required" db) ∧
    (∀ la lo, coerceFinite lat = some la → coerceFinite lon = some lo →
      (la < -90 ∨ la > 90 ∨ lo < -180 ∨ lo > 180) →
      updateLocation db driverId lat lon accuracy heading speed =
        .err 400 "Invalid latitude/longitude" db) := by
  constructor
  · intro h
    cases lat <;> cases lon <;> simp_all [coerceFinite, updateLocation]
  · intro la lo h1 h2 hrange
    cases lat with
    | missing => simp [coerceFinite] at h1
    | nonFinite => simp [coerceFinite] at h1
    | finite qa =>
      cases lon with
      | missing => simp [coerceFinite] at h2
      | nonFinite => simp [coerceFinite] at h2
      | finite qb =>
        simp only [coerceFinite, Option.some.injEq] at h1 h2
        subst h1
        subst h2
        unfold updateLocation
        simp only [coerceFinite, if_pos hrange]

/-- Witness for `updateLocation_validation`: a NaN latitude and an
out-of-range latitude are both rejected with the store untouched. -/
theorem updateLocation_validation_witness :
    updateLocation exDb8 "d1" .nonFinite (.finite 10) none none none =
      .err 400 "latitude and longitude are required" exDb8 ∧
    updateLocation exDb8 "d1" (.finite 91) (.finite 10) none none none =
      .err 400 "Invalid latitude/longitude" exDb8 := by
  constructor
  · exact (updateLocation_validation exDb8 "d1" .nonFinite (.finite 10)
      none none none).1 (Or.inl rfl)
  · exact (updateLocation_validation exDb8 "d1" (.finite 91) (.finite 10)
      none none none).2 91 10 rfl rfl (by norm_num)

/-! ### C2: payout requests -/

/-- The HTTP outcome of `requestPayout`: status code and post-commit store. -/
structure PayoutResponse where
  status : Nat
  db : Db
  deriving Repr

/-- `(getDriverEarnings …).minPayoutAmount` is the $5 minimum. -/
theorem getDriverEarnings_minPayoutAmount (db : Db) (d : String) :
    (getDriverEarnings db d).minPayoutAmount = 5 := rfl

/-- `driverController.requestPayout` (driver.controller.ts): validate the
amount, the driver's payout destination, and the balance recomputed by
`getDriverEarnings` at request time; then verify the destination account
(`accountOk`) and attempt the transfer (`transfer` is the external rail's
outcome).  On transfer success exactly one SUCCEEDED row (with the transfer
id) is appended and 200 returned; on transfer failure exactly one FAILED row
(with the failure reason) is appended and 502 returned.  `amount = none`
models a non-number request body. -/
def requestPayout (db : Db) (driverId : String) (amount : Option ℚ)
    (accountOk : Bool) (transfer : Except String String) (payoutId : String) :
    PayoutResponse :=
  match amount with
  | none => ⟨400, db⟩
  | some a =>
    if a ≤ 0 then ⟨400, db⟩
    else
      match db.drivers.find? (fun d => decide (d.id = driverId)) with
      | none => ⟨404, db⟩
      | some driver =>
        match driver.stripeConnectAccountId with
        | none => ⟨400, db⟩
        | some _ =>
          let earnings := getDriverEarnings db driverId
          if earnings.availableBalance < a then ⟨400, db⟩
          else if a < earnings.minPayoutAmount then ⟨400, db⟩
          else if ¬accountOk then ⟨400, db⟩
          else
            match transfer with
            | .error msg =>
              ⟨502, { db with payouts := db.payouts ++
                  [⟨payoutId, driverId, a, .FAILED, none, some msg⟩] }⟩
            | .ok tid =>
              ⟨200, { db with payouts := db.payouts ++
                  [⟨payoutId, driverId, a, .SUCCEEDED, some tid, none⟩] }⟩

/-- C2: every validation failure (non-positive amount, missing payout
destination, amount below the $5 minimum, amount above the balance
recomputed at request time) returns 400 with no ledger row written; when
validation and the account check pass, a successful transfer appends exactly
one SUCCEEDED row (carrying the transfer id) with a 200 response, and a
failed transfer appends exactly one FAILED row (carrying the reason) with a
non-2xx (502) response. -/
theorem requestPayout_spec (db : Db) (driverId : String) (accountOk : Bool)
    (transfer : Except String String) (payoutId : String) :
    (∀ a, a ≤ 0 →
      requestPayout db driverId (some a) accountOk transfer payoutId = ⟨400, db⟩) ∧
    (∀ driver, db.drivers.find? (fun d => decide (d.id = driverId)) = some driver →
      driver.stripeConnectAccountId = none →
      ∀ a, 0 < a →
      requestPayout db driverId (some a) accountOk transfer payoutId = ⟨400, db⟩) ∧
    (∀ driver, db.drivers.find? (fun d => decide (d.id = driverId)) = some driver →
      ∀ a, 0 < a → a < 5 →
      requestPayout db driverId (some a) accountOk transfer payoutId = ⟨400, db⟩) ∧
    (∀ driver, db.drivers.find? (fun d => decide (d.id = driverId)) = some driver →
      ∀ a, 0 < a → (getDriverEarnings db driverId).availableBalance < a →
      requestPayout db driverId (some a) accountOk transfer payoutId = ⟨400, db⟩) ∧
    (∀ driver acct,
      db.drivers.find? (fun d => decide (d.id = driverId)) = some driver →
      driver.stripeConnectAccountId = some acct →
      ∀ a, 0 < a → 5 ≤ a → a ≤ (getDriverEarnings db driverId).availableBalance →
      accountOk = true →
      ∀ tid, transfer = .ok tid →
      requestPayout db driverId (some a) accountOk transfer payoutId =
        ⟨200, { db with payouts := db.payouts ++
            [⟨payoutId, driverId, a, .SUCCEEDED, some tid, none⟩] }⟩) ∧
    (∀ driver acct,
      db.drivers.find? (fun d => decide (d.id = driverId)) = some driver →
      driver.stripeConnectAccountId = some acct →
      ∀ a, 0 < a → 5 ≤ a → a ≤ (getDriverEarnings db driverId).availableBalance →
      accountOk = true →
      ∀ msg, transfer = .error msg →
      requestPayout db driverId (some a) accountOk transfer payoutId =
        ⟨502, { db with payouts := db.payouts ++
            [⟨payoutId, driverId, a, .FAILED, none, some msg⟩] }⟩) := by
  refine ⟨?_, ?_, ?_, ?_, ?_, ?_⟩
  · intro a ha
    unfold requestPayout
    simp only [if_pos ha]
  · intro driver hfind hacct a ha
    unfold requestPayout
    rw [hfind]
    simp only [if_neg (not_le.mpr ha), hacct]
  · intro driver hfind a ha h5
    unfold requestPayout
    rw [hfind]
    simp only [if_neg (not_le.mpr ha)]
    cases hacct : driver.stripeConnectAccountId with
    | none => rfl
    | some acct =>
      by_cases hb : (getDriverEarnings db driverId).availableBalance < a
      · simp only [if_pos hb]
      · simp only [if_neg hb, getDriverEarnings_minPayoutAmount, if_pos h5]
  · intro driver hfind a ha hb
    unfold requestPayout
    rw [hfind]
    simp only [if_neg (not_le.mpr ha)]
    cases hacct : driver.stripeConnectAccountId with
    | none => rfl
    | some acct => simp only [if_pos hb]
  · intro driver acct hfind hacct a ha h5 hbal hok tid htr
    unfold requestPayout
    rw [hfind]
    simp only [if_neg (not_le.mpr ha), hacct,
      if_neg (not_lt.mpr hbal), getDriverEarnings_minPayoutAmount,
      if_neg (not_lt.mpr h5), hok, not_true, if_false, htr]
  · intro driver acct hfind hacct a ha h5 hbal hok msg htr
    unfold requestPayout
    rw [hfind]
    simp only [if_neg (not_le.mpr ha), hacct,
      if_neg (not_lt.mpr hbal), getDriverEarnings_minPayoutAmount,
      if_neg (not_lt.mpr h5), hok, not_true, if_false, htr]

/-- Driver with a configured payout destination. -/
def exDriver2 : Driver :=
  { id := "d2", isAvailable := true, isActive := true, stripeConnectAccountId := some "acct_1" }

/-- Driver without a payout destination. -/
def exDriver3 : Driver :=
  { id := "d3", isAvailable := true, isActive := true, stripeConnectAccountId := none }

/-- Delivered, paid fuel order crediting d2 with $8 + $2. -/
def exF2 : FuelOrder :=
  { id := "f2", userId := "u1", driverId := some "d2", orderNumber := "PT-2",
    status := .DELIVERED, paymentStatus := .PAID,
    paymentMethod := .CASH_ON_DELIVERY, totalAmount := 20, fuelCost := 10,
    deliveryFee := 8, tax := 0, tip := 2, deliveredAt := some 4,
    cancelledAt := none, cancellationReason := none }

/-- Store for the payout witness: d2 has a $10 balance, d3 has no account. -/
def exDb2 : Db := ⟨[exF2], [], [exDriver2, exDriver3], [], []⟩

theorem exDb2_balance : (getDriverEarnings exDb2 "d2").availableBalance = 10 := by
  obtain ⟨he, hp, hb, -⟩ := getDriverEarnings_spec exDb2 "d2"
  rw [hb, he, hp]
  norm_num [exDb2, exF2, fuelEarnQual, chargingEarnQual]

/-- Witness for `requestPayout_spec` at concrete inputs: each validation
failure returns 400 with no row, a successful transfer appends one
SUCCEEDED row with 200, a failed transfer appends one FAILED row with 502. -/
theorem requestPayout_spec_witness :
    requestPayout exDb2 "d2" (some (-1)) true (.ok "tr") "po" = ⟨400, exDb2⟩ ∧
    requestPayout exDb2 "d3" (some 7) true (.ok "tr") "po" = ⟨400, exDb2⟩ ∧
    requestPayout exDb2 "d2" (some 2) true (.ok "tr") "po" = ⟨400, exDb2⟩ ∧
    requestPayout exDb2 "d2" (some 11) true (.ok "tr") "po" = ⟨400, exDb2⟩ ∧
    requestPayout exDb2 "d2" (some 7) true (.ok "tr_1") "po1" =
      ⟨200, { exDb2 with payouts := exDb2.payouts ++ [⟨"po1", "d2", 7, .SUCCEEDED, some "tr_1", none⟩] }⟩ ∧
    requestPayout exDb2 "d2" (some 6) true (.error "boom") "po2" =
      ⟨502, { exDb2 with payouts := exDb2.payouts ++ [⟨"po2", "d2", 6, .FAILED, none, some "boom"⟩] }⟩ := by
  refine ⟨?_, ?_, ?_, ?_, ?_, ?_⟩
  · exact (requestPayout_spec exDb2 "d2" true (.ok "tr") "po").1 (-1) (by norm_num)
  · exact (requestPayout_spec exDb2 "d3" true (.ok "tr") "po").2.1 exDriver3 rfl rfl
      7 (by norm_num)
  · exact (requestPayout_spec exDb2 "d2" true (.ok "tr") "po").2.2.1 exDriver2 rfl
      2 (by norm_num) (by norm_num)
  · exact (requestPayout_spec exDb2 "d2" true (.ok "tr") "po").2.2.2.1 exDriver2 rfl
      11 (by norm_num) (by rw [exDb2_balance]; norm_num)
  · exact (requestPayout_spec exDb2 "d2" true (.ok "tr_1") "po1").2.2.2.2.1 exDriver2
      "acct_1" rfl rfl 7 (by norm_num) (by norm_num)
      (by rw [exDb2_balance]; norm_num) rfl "tr_1" rfl
  · exact (requestPayout_spec exDb2 "d2" true (.error "boom") "po2").2.2.2.2.2 exDriver2
      "acct_1" rfl rfl 6 (by norm_num) (by norm_num)
      (by rw [exDb2_balance]; norm_num) rfl "boom" rfl

end Petrotech
